import Mathlib

/-!
Verification of the omnistack admission-control / cache-aside subsystem.

Shallow embedding of:
  * src/cache/cache_manager.py   (CacheManager.get / set / delete)
  * src/api/rate_limiter.py      (RateLimiter.check_rate_limit and its Lua script)
  * src/ai_core/service_manager.py (AIServiceManager.analyze_code)

Conventions of the embedding:
  * Python floats (token counts, timestamps) are modelled as rationals (ℚ).
  * Redis is modelled as an association list from keys to entries together with
    an absolute expiry time; an entry is live at time `now` iff `now < expireAt`.
    Both redis clients of CacheManager (text and binary) connect to the same
    host/port/db, hence they share one keyspace in the model.
  * `await` applied to a call of a synchronous method (service_manager.py
    lines 60 and 90) is modelled by its real effect: the call expression is
    evaluated first, so an exception it raises propagates, and otherwise the
    `await` of its non-awaitable result raises TypeError. Provider coroutine
    outcomes enter as parameters.
  * Exceptions are modelled with `Except`: an operation that lets a Python
    exception propagate returns `Except.error`.
-/

namespace OmniStack

/-- JSON-like values: the image of Python values under `json.dumps`/`json.loads`. -/
inductive JVal where
  | null : JVal
  | jbool : Bool → JVal
  | jnum : ℚ → JVal
  | jstr : String → JVal
  | jarr : List JVal → JVal
  | jobj : List (String × JVal) → JVal

/-- Python values seen by the cache: either a JSON-serializable value, or a
non-JSON-serializable object (identified by a tag), for which `json.dumps`
raises `TypeError` and which the source intends to pickle. -/
inductive PyVal where
  | json : JVal → PyVal
  | pyobj : Nat → PyVal

/-- Python `None` is the JSON value `null`. -/
def pyNone : PyVal := .json .null

/-- The raw byte string held in redis under a cache key, classified by whether
`json.loads` succeeds on it: `text j` is a byte string that parses as the JSON
value `j` (what `json.dumps` wrote); `blob v` is a pickle byte string (it does
not parse as JSON, so `json.loads` raises `JSONDecodeError` on it) whose
`pickle.loads` gives back `v`. No encoding tag accompanies the payload: the
cell IS the serialized payload. -/
inductive Stored where
  | text : JVal → Stored
  | blob : PyVal → Stored

/-- One redis record: the payload plus the absolute time at which the key
expires (`set key value ex=ttl` at time `t` gives `expireAt = t + ttl`). -/
structure CacheRec where
  payload : Stored
  expireAt : ℚ

/-- The single redis keyspace backing both CacheManager clients, plus a flag
modelling the store being unreachable (every redis command raises then). -/
structure RStore where
  down : Bool
  entries : List (String × CacheRec)

/-- Exceptions that escape the cache layer. -/
inductive PyErr where
  | connError : PyErr
  | attributeError : PyErr
deriving DecidableEq, Repr

/-- Association-list lookup on a redis keyspace. -/
def kvFind {α : Type} : List (String × α) → String → Option α
  | [], _ => none
  | p :: es, k => if p.1 = k then some p.2 else kvFind es k

/-- Remove a key from the keyspace. -/
def kvErase {α : Type} : List (String × α) → String → List (String × α)
  | [], _ => []
  | p :: es, k => if p.1 = k then kvErase es k else p :: kvErase es k

/-- Overwrite a key in the keyspace. -/
def kvPut {α : Type} (es : List (String × α)) (k : String) (r : α) :
    List (String × α) :=
  (k, r) :: kvErase es k

/-- A redis GET at time `now`: a record whose expiry has passed behaves as
absent. -/
def kvLive (es : List (String × CacheRec)) (k : String) (now : ℚ) : Option Stored :=
  match kvFind es k with
  | none => none
  | some r => if now < r.expireAt then some r.payload else none

namespace CacheManager

/-- `CacheManager.get` (src/cache/cache_manager.py lines 28-44): read via the
text client; absent key returns the caller's default; a payload that parses as
JSON is returned as the parsed value; on `json.JSONDecodeError` the binary
client re-reads the same record and unpickles it. A down store raises
(the `try` only catches `json.JSONDecodeError`, not connection errors). -/
def get (rs : RStore) (k : String) (now : ℚ) (default : PyVal) : Except PyErr PyVal :=
  if rs.down then .error .connError
  else
    match kvLive rs.entries k now with
    | none => .ok default
    | some (.text j) => .ok (.json j)
    | some (.blob v) =>
        -- json.loads raised JSONDecodeError; fall back to binary_redis.get of
        -- the same key in the same database, then pickle.loads.
        .ok v

/-- `CacheManager.set` (lines 46-62): `json.dumps` then SET with TTL. For a
non-JSON-serializable value `json.dumps` raises `TypeError`; evaluating the
handler clause `except (TypeError, json.JSONEncodeError)` then raises
`AttributeError`, because the `json` module has no attribute `JSONEncodeError`,
so the pickle fallback on lines 61-62 is unreachable and nothing is stored. -/
def set (rs : RStore) (k : String) (v : PyVal) (now : ℚ) (ttl : ℚ) :
    Except PyErr RStore :=
  match v with
  | .pyobj _ => .error .attributeError
  | .json j =>
      if rs.down then .error .connError
      else .ok ⟨false, kvPut rs.entries k ⟨.text j, now + ttl⟩⟩

/-- `CacheManager.delete` (lines 64-67): DELETE through both clients; they
address the same keyspace, so the record for `k` is removed. -/
def delete (rs : RStore) (k : String) : Except PyErr RStore :=
  if rs.down then .error .connError
  else .ok ⟨false, kvErase rs.entries k⟩

end CacheManager

/-! ## Rate limiter (src/api/rate_limiter.py) -/

/-- One token bucket record in the shared store: the hash fields written by
`hmset bucket_key tokens .. last_update ..` plus the absolute expiry set by
`expire bucket_key window`. -/
structure BucketRec where
  tokens : ℚ
  lastUpdate : ℚ
  expireAt : ℚ

/-- The shared store keyed by bucket key. -/
abbrev BStore := List (String × BucketRec)

/-- The Lua script's load step (lines 78-80 of the script region): `hgetall`
of an absent or expired key yields an empty table, and
`tonumber(bucket[2] or burst)` / `tonumber(bucket[4] or 0)` default the pair
to (burst, 0). -/
def loadBucket (st : BStore) (k : String) (now burst : ℚ) : ℚ × ℚ :=
  match kvFind st k with
  | some r => if now < r.expireAt then (r.tokens, r.lastUpdate) else (burst, 0)
  | none => (burst, 0)

/-- The Lua script of `RateLimiter.check_rate_limit`
(src/api/rate_limiter.py lines 70-101), one atomic transaction. The window is
the literal 60 in the script. `time_passed = now - last_update` carries no
clamp, and the deny branch returns 0 without writing anything back. -/
def consume (st : BStore) (k : String) (now rate burst : ℚ) : Bool × BStore :=
  let window : ℚ := 60
  let loaded := loadBucket st k now burst
  let time_passed := now - loaded.2
  let new_tokens := min burst (loaded.1 + rate * time_passed / window)
  if 1 ≤ new_tokens then
    (true, kvPut st k ⟨new_tokens - 1, now, now + window⟩)
  else
    (false, st)

/-- `RateLimitConfig` (src/api/rate_limiter.py lines 11-16). The source field
`key_prefix` is rendered here as `key_ns` (the bucket key namespace). -/
structure RateLimitConfig where
  requests_per_minute : ℚ
  burst_size : ℚ
  key_ns : String

/-- The default configuration built in `RateLimiter.__init__` (lines 27-31). -/
def defaultConfig : RateLimitConfig :=
  { requests_per_minute := 60, burst_size := 10, key_ns := "rate_limit" }

/-- `self.tier_configs` (lines 34-50). -/
def tierConfigs : List (String × RateLimitConfig) :=
  [("free", { requests_per_minute := 60, burst_size := 10,
              key_ns := "rate_limit:free" }),
   ("pro", { requests_per_minute := 300, burst_size := 50,
             key_ns := "rate_limit:pro" }),
   ("enterprise", { requests_per_minute := 1000, burst_size := 100,
                    key_ns := "rate_limit:enterprise" })]

/-- `self.tier_configs.get(subscription_tier, self.default_config)`
(lines 61-64): an unknown tier falls back to the default configuration. -/
def configFor (tier : String) : RateLimitConfig :=
  (kvFind tierConfigs tier).getD defaultConfig

/-- `bucket_key = f"{config.key_prefix}:{key}"` (line 66). -/
def bucketKey (tier clientKey : String) : String :=
  (configFor tier).key_ns ++ ":" ++ clientKey

/-- `RateLimiter.check_rate_limit` (lines 52-122): resolve the tier
configuration, run the atomic Lua consume, and on any exception from the
store (modelled by `down`) log and `return True` — allow the request
(lines 116-122). The caught exception path performs no store write. -/
def check_rate_limit (down : Bool) (st : BStore) (key tier : String) (now : ℚ) :
    Bool × BStore :=
  if down then (true, st)
  else
    let config := configFor tier
    consume st (bucketKey tier key) now config.requests_per_minute config.burst_size

/-! ## Orchestrator (src/ai_core/service_manager.py) -/

/-- Stand-in for CPython's string hash `hash(code)`: the builtin is salted
per interpreter run and implementation-defined, so the embedding fixes one
concrete pure function of the string; the theorems below rely only on the
key deriving from the code string alone through some fixed function. -/
def pyHash (s : String) : Int :=
  Int.ofNat (s.data.foldl (fun h c => (h * 131 + c.toNat) % (2 ^ 61 - 1)) 7)

/-- The request context dict: an optional structured map. -/
abbrev Ctx := Option (List (String × String))

/-- `cache_key = f"analysis:{hash(code)}"` (service_manager.py line 59),
as a function of the full request pair: the `context` argument of the
analyze call never enters the key. -/
def analysisCacheKey (code : String) (_context : Ctx) : String :=
  "analysis:" ++ toString (pyHash code)

/-- The `AnalysisResult` dataclass (service_manager.py lines 17-24). -/
structure AnalysisResult where
  quality_score : ℚ
  issues : List JVal
  optimizations : List JVal
  patterns : List JVal
  execution_time : ℚ
  timestamp : String

/-- The context-analysis branch's output dict: `code_quality_score` is read
with `[]` (KeyError if absent, so it is part of the provider contract) and
`related_patterns` with `.get(..., [])`. -/
structure CtxOut where
  code_quality_score : ℚ
  related_patterns : Option (List JVal)

/-- Exceptions escaping `analyze_code`. -/
inductive AErr where
  | connError : AErr
  | attributeError : AErr
  | typeError : AErr
  | provider : String → AErr
deriving DecidableEq, Repr

/-- Lift a cache-layer exception re-raised by `analyze_code`. -/
def aerrOfPy : PyErr → AErr
  | .connError => .connError
  | .attributeError => .attributeError

/-- `asyncio.gather` over the three analysis branches (lines 67-73): if a
branch raised, awaiting the gather re-raises that exception (modelled in
task order). -/
def gather3 (a : Except String CtxOut) (b c : Except String (List JVal)) :
    Except String (CtxOut × List JVal × List JVal) := do
  let x ← a
  let y ← b
  let z ← c
  return (x, y, z)

/-- `AIServiceManager.analyze_code` (service_manager.py lines 46-109).
The analysis branches are external capabilities: their outcomes enter as
`Except` parameters; wall-clock values (`now`, the measured `exec_time`, the
`timestamp` string) are ambient clock inputs. Control flow per the source:

With `use_cache` true the call executes `await self.cache.get(cache_key)`
(line 60), OUTSIDE the `try`. The synchronous `CacheManager.get` call is
evaluated first: with the store unreachable its redis exception propagates to
the caller; with the store reachable it returns a plain value, and `await` of
that non-awaitable value raises `TypeError` — also propagating. Either way no
provider task is ever created, the hit/miss code of lines 61-63 and the
`cache.set` of line 90 (likewise a dead `await` of a synchronous call, under
`if use_cache:`) are unreachable, and the store is not written.

With `use_cache` false, the three branches are gathered inside the `try`
(lines 67-73); a branch's exception is re-raised unchanged by the
`except Exception` handler after logging and telemetry (lines 106-109), and
on success the result is assembled and returned with no cache write.
Returns the outcome together with the resulting cache store. -/
def analyze_code (cache : RStore) (use_cache : Bool) (code : String)
    (context : Ctx) (ctxTask : Except String CtxOut)
    (debugTask optTask : Except String (List JVal))
    (now exec_time : ℚ) (timestamp : String) :
    Except AErr AnalysisResult × RStore :=
  let cache_key := analysisCacheKey code context
  if use_cache then
    match CacheManager.get cache cache_key now pyNone with
    | .error pe => (.error (aerrOfPy pe), cache)
    | .ok _ => (.error .typeError, cache)
  else
    match gather3 ctxTask debugTask optTask with
    | .error msg => (.error (.provider msg), cache)
    | .ok (c, d, o) =>
        let result : AnalysisResult :=
          { quality_score := c.code_quality_score
            issues := d
            optimizations := o
            patterns := c.related_patterns.getD []
            execution_time := exec_time
            timestamp := timestamp }
        (.ok result, cache)

/-! ## Keyspace lemmas -/

theorem kvFind_kvErase {α : Type} (es : List (String × α)) (k k' : String) :
    kvFind (kvErase es k) k' = if k' = k then none else kvFind es k' := by
  induction es with
  | nil => simp [kvErase, kvFind]
  | cons p es ih =>
      simp only [kvErase]
      by_cases h : p.1 = k
      · rw [if_pos h, ih]
        by_cases hk : k' = k
        · simp [hk]
        · rw [if_neg hk, if_neg hk]
          simp only [kvFind]
          rw [if_neg (fun hpk : p.1 = k' => hk (hpk ▸ h ▸ rfl))]
      · rw [if_neg h]
        simp only [kvFind]
        by_cases h2 : p.1 = k'
        · rw [if_pos h2, if_pos h2, if_neg (fun hk : k' = k => h (h2.symm ▸ hk ▸ rfl))]
        · rw [if_neg h2, if_neg h2, ih]

theorem kvFind_kvPut {α : Type} (es : List (String × α)) (k k' : String) (r : α) :
    kvFind (kvPut es k r) k' = if k' = k then some r else kvFind es k' := by
  simp only [kvPut, kvFind]
  by_cases h : k = k'
  · rw [if_pos h, if_pos h.symm]
  · rw [if_neg h, if_neg (fun h' : k' = k => h h'.symm), kvFind_kvErase,
      if_neg (fun h' : k' = k => h h'.symm)]

theorem kvErase_all {α : Type} (es : List (String × α)) (k : String)
    (p : String × α → Bool) (h : es.all p = true) : (kvErase es k).all p = true := by
  induction es with
  | nil => simp [kvErase]
  | cons q es ih =>
      simp only [List.all_cons, Bool.and_eq_true] at h
      simp only [kvErase]
      by_cases hq : q.1 = k
      · rw [if_pos hq]; exact ih h.2
      · rw [if_neg hq]
        simp only [List.all_cons, Bool.and_eq_true]
        exact ⟨h.1, ih h.2⟩

/-! ## Claim theorems -/

/-- C9: with the shared store unreachable during a rate-limit check, the
`except Exception` handler of `check_rate_limit` logs and returns True: the
request is allowed, nothing is raised, and no store write happens. -/
theorem c9_fail_open (st : BStore) (key tier : String) (now : ℚ) :
    check_rate_limit true st key tier now = (true, st) := rfl

/-- C10: `delete` removes the record for the key from the one keyspace both
clients of CacheManager address, so a following `get` of that key returns the
caller-supplied default — whichever encoding the value was stored under. -/
theorem c10_delete_then_get_default (entries : List (String × CacheRec))
    (k : String) (now : ℚ) (d : PyVal) (st' : RStore)
    (h : CacheManager.delete ⟨false, entries⟩ k = .ok st') :
    CacheManager.get st' k now d = .ok d := by
  have hst : st' = ⟨false, kvErase entries k⟩ := by
    simpa [CacheManager.delete] using h.symm
  subst hst
  simp [CacheManager.get, kvLive, kvFind_kvErase]

/-- Witness for C10 at a concrete store holding a JSON record and a pickle
record under other keys. -/
theorem c10_witness :
    CacheManager.get ⟨false, kvErase [("k", ⟨.text .null, 50⟩),
        ("j", ⟨.blob (.pyobj 1), 50⟩)] "k"⟩ "k" 0 pyNone = .ok pyNone :=
  c10_delete_then_get_default [("k", ⟨.text .null, 50⟩), ("j", ⟨.blob (.pyobj 1), 50⟩)]
    "k" 0 pyNone _ rfl

/-- C6 (code bug): storing a value `json.dumps` cannot serialize raises
`AttributeError` — the handler `except (TypeError, json.JSONEncodeError)`
names an attribute the `json` module does not have, so the pickle fallback
its own comment promises is unreachable — nothing is written, and the
round-trip read then returns the default rather than the stored value. -/
theorem c6_set_nonjson_raises :
    CacheManager.set ⟨false, []⟩ "k" (.pyobj 0) 0 3600 = .error .attributeError
    ∧ CacheManager.get ⟨false, []⟩ "k" 0 pyNone = .ok pyNone :=
  ⟨rfl, rfl⟩

/-- C5 counterexample: the record `set` writes for a structured value is the
bare serialized payload — no discriminant is stored next to it — and on a
payload that fails JSON parsing, `get` reaches the pickle decoder through the
`except json.JSONDecodeError` fallback, not through any stored tag. -/
theorem c5_counterexample_trial_decode :
    CacheManager.set ⟨false, []⟩ "k" (.json (.jnum 5)) 0 3600
      = .ok ⟨false, [("k", ⟨.text (.jnum 5), 0 + 3600⟩)]⟩
    ∧ CacheManager.get ⟨false, [("k", ⟨.blob (.pyobj 7), 100⟩)]⟩ "k" 0 pyNone
      = .ok (.pyobj 7) := by
  constructor
  · rfl
  · simp [CacheManager.get, kvLive, kvFind]

/-- C5 amended: no encoding discriminant exists in the stored representation —
every successful `set` writes exactly the JSON serialization of the value as
the whole record (the value is necessarily JSON-encodable, the pickle branch
being unreachable); `get` chooses its decoder by trial decoding, as the
counterexample shows. -/
theorem c5_set_stores_bare_payload (rs : RStore) (k : String) (v : PyVal)
    (now ttl : ℚ) (rs' : RStore)
    (h : CacheManager.set rs k v now ttl = .ok rs') :
    ∃ j, v = .json j ∧ rs'.entries = kvPut rs.entries k ⟨.text j, now + ttl⟩ := by
  cases v with
  | pyobj n => simp [CacheManager.set] at h
  | json j =>
      refine ⟨j, rfl, ?_⟩
      by_cases hd : rs.down
      · simp [CacheManager.set, hd] at h
      · simp [CacheManager.set, hd] at h
        rw [← h]

/-- Witness for C5 at a concrete successful `set`. -/
theorem c5_witness :
    ∃ j, PyVal.json (JVal.jnum 5) = .json j
      ∧ (RStore.mk false [("k", ⟨.text (.jnum 5), 0 + 3600⟩)]).entries
          = kvPut ([] : List (String × CacheRec)) "k" ⟨.text j, 0 + 3600⟩ :=
  c5_set_stores_bare_payload ⟨false, []⟩ "k" (.json (.jnum 5)) 0 3600
    ⟨false, [("k", ⟨.text (.jnum 5), 0 + 3600⟩)]⟩ rfl

/-- C1 amended: the cache fingerprint is a pure function of `code` alone —
any two requests with the same code receive the same key whatever their
contexts — and tested pairs with distinct code receive distinct keys. -/
theorem c1_cache_key_pure_in_code :
    (∀ (code : String) (ctxA ctxB : Ctx),
        analysisCacheKey code ctxA = analysisCacheKey code ctxB)
    ∧ analysisCacheKey "def f(): pass" none ≠ analysisCacheKey "def g(): pass" none :=
  ⟨fun _ _ _ => rfl, by decide⟩

/-- C1 counterexample: two requests with equal code and different contexts
receive the same cache key, though the claim requires distinct keys for
requests that differ in context. -/
theorem c1_counterexample_context_ignored :
    analysisCacheKey "def f(): pass" none
      = analysisCacheKey "def f(): pass" (some [("lang", "python")])
    ∧ (none : Ctx) ≠ some [("lang", "python")] :=
  ⟨rfl, by decide⟩

/-- C4 amended: with the cache store unreachable and `use_cache = true`, the
redis exception from the lookup — performed outside the `try` — propagates to
the caller: the call fails instead of degrading to the uncached path, whatever
the providers would have returned. -/
theorem c4_down_store_fails_call (entries : List (String × CacheRec))
    (code : String) (context : Ctx) (ctxTask : Except String CtxOut)
    (debugTask optTask : Except String (List JVal)) (now et : ℚ) (ts : String) :
    analyze_code ⟨true, entries⟩ true code context ctxTask debugTask optTask now et ts
      = (.error .connError, ⟨true, entries⟩) := rfl

/-- C4 counterexample: all three providers succeed, yet with the cache store
down the call raises the connection error rather than returning the analysis
result, contrary to the claim that it never fails for that reason. -/
theorem c4_counterexample_cache_down_raises :
    analyze_code ⟨true, []⟩ true "def f(): pass" none
        (.ok { code_quality_score := 1, related_patterns := none })
        (.ok []) (.ok []) 0 0 "2026-01-01T00:00:00"
      = (.error .connError, ⟨true, []⟩) := rfl

/-- The refill value the Lua script computes before the consume test:
`min(burst, tokens + rate * time_passed / 60)` over the loaded pair. -/
def refillOf (st : BStore) (k : String) (now rate burst : ℚ) : ℚ :=
  min burst
    ((loadBucket st k now burst).1 + rate * (now - (loadBucket st k now burst).2) / 60)

theorem consume_eq_ite (st : BStore) (k : String) (now rate burst : ℚ) :
    consume st k now rate burst
      = if 1 ≤ refillOf st k now rate burst
        then (true, kvPut st k ⟨refillOf st k now rate burst - 1, now, now + 60⟩)
        else (false, st) := rfl

/-- C2 amended: the deployed consume — elapsed is `now - lastUpdate` with no
clamp, the window is the literal 60 of the script, an allowed call persists
(refilled - 1, now) with TTL 60, a denied call persists nothing, and an
absent (or expired) record defaults to (burst, 0). -/
theorem c2_consume_amended (st : BStore) (k : String) (now rate burst : ℚ) :
    ((consume st k now rate burst).1 = true ↔ 1 ≤ refillOf st k now rate burst)
    ∧ (1 ≤ refillOf st k now rate burst →
        (consume st k now rate burst).2
          = kvPut st k ⟨refillOf st k now rate burst - 1, now, now + 60⟩)
    ∧ (¬ 1 ≤ refillOf st k now rate burst → (consume st k now rate burst).2 = st)
    ∧ (kvFind st k = none → loadBucket st k now burst = (burst, 0)) := by
  refine ⟨?_, ?_, ?_, ?_⟩
  · rw [consume_eq_ite]
    by_cases h : 1 ≤ refillOf st k now rate burst <;> simp [h]
  · intro h; rw [consume_eq_ite, if_pos h]
  · intro h; rw [consume_eq_ite, if_neg h]
  · intro h; simp [loadBucket, h]

/-- C2 counterexample. Denied call, record (tokens 0, lastUpdate 0, live):
at now=30, rate=1, burst=10 the claim's refill is 1/2 < 1 and the claim
persists (1/2, 30); the code leaves (0, 0) in place. Clock-skew call, record
(tokens 5, lastUpdate 100): at now=40 the claim clamps elapsed to 0, refill 5,
persisting (4, 40); the code's unclamped elapsed is -60 and it persists
(3, 40). -/
theorem c2_counterexample_deny_no_persist :
    (consume [("k", ⟨0, 0, 100⟩)] "k" 30 1 10).1 = false
    ∧ (kvFind (consume [("k", ⟨0, 0, 100⟩)] "k" 30 1 10).2 "k").map
        (fun r => (r.tokens, r.lastUpdate)) = some (0, 0)
    ∧ min (10 : ℚ) (0 + 1 * max 0 (30 - 0) / 60) = 1 / 2
    ∧ (0 : ℚ) ≠ (1 : ℚ) / 2
    ∧ (kvFind (consume [("k", ⟨5, 100, 200⟩)] "k" 40 1 10).2 "k").map
        (fun r => (r.tokens, r.lastUpdate)) = some (3, 40)
    ∧ min (10 : ℚ) (5 + 1 * max 0 (40 - 100) / 60) = 5
    ∧ (3 : ℚ) ≠ (5 : ℚ) - 1 := by
  refine ⟨?_, ?_, ?_, ?_, ?_, ?_, ?_⟩ <;>
    norm_num [consume, loadBucket, kvFind, kvPut, kvErase, min_def, max_def]

/-- A trace of consume calls against one tier's bucket configuration: each
call carries (bucket key, now, rate); the burst capacity is fixed; the store
starts empty. -/
def runTrace (burst : ℚ) (calls : List (String × ℚ × ℚ)) : BStore :=
  calls.foldl (fun st c => (consume st c.1 c.2.1 c.2.2 burst).2) []

/-- Every bucket record of the store holds a token count within [0, burst]. -/
def tokensInRange (burst : ℚ) (st : BStore) : Bool :=
  st.all (fun p => decide (0 ≤ p.2.tokens) && decide (p.2.tokens ≤ burst))

theorem consume_preserves_range (burst : ℚ) (st : BStore) (k : String)
    (now rate : ℚ) (h : tokensInRange burst st = true) :
    tokensInRange burst (consume st k now rate burst).2 = true := by
  rw [consume_eq_ite]
  by_cases h1 : 1 ≤ refillOf st k now rate burst
  · rw [if_pos h1]
    simp only [tokensInRange, kvPut, List.all_cons, Bool.and_eq_true,
      decide_eq_true_eq]
    refine ⟨⟨by linarith, ?_⟩, kvErase_all _ _ _ h⟩
    have hle : refillOf st k now rate burst ≤ burst := min_le_left _ _
    linarith
  · rw [if_neg h1]; exact h

/-- C3: from an empty store, after every call of any consume sequence — any
interleaving of client keys, any clock values including skewed ones, any
rates — every stored bucket record's token count lies within [0, burst]:
a denied call writes nothing back, and an allowed call writes
`refilled - 1 ∈ [0, burst - 1]`. -/
theorem c3_tokens_in_range (burst : ℚ) (calls : List (String × ℚ × ℚ)) :
    tokensInRange burst (runTrace burst calls) = true := by
  suffices h : ∀ st, tokensInRange burst st = true →
      tokensInRange burst
        (calls.foldl (fun st c => (consume st c.1 c.2.1 c.2.2 burst).2) st) = true by
    exact h [] rfl
  induction calls with
  | nil => intro st hst; simpa using hst
  | cons c cs ih =>
      intro st hst
      simpa using ih _ (consume_preserves_range burst st c.1 c.2.1 c.2.2 hst)

theorem consume_frame (st : BStore) (k k' : String) (now rate burst : ℚ)
    (h : k' ≠ k) :
    kvFind (consume st k now rate burst).2 k' = kvFind st k' := by
  rw [consume_eq_ite]
  by_cases h1 : 1 ≤ refillOf st k now rate burst
  · rw [if_pos h1]
    show kvFind (kvPut st k _) k' = kvFind st k'
    rw [kvFind_kvPut, if_neg h]
  · rw [if_neg h1]

theorem consume_allowed_congr (st1 st2 : BStore) (k : String) (now rate burst : ℚ)
    (h : kvFind st1 k = kvFind st2 k) :
    (consume st1 k now rate burst).1 = (consume st2 k now rate burst).1 := by
  have hl : loadBucket st1 k now burst = loadBucket st2 k now burst := by
    simp [loadBucket, h]
  have hr : refillOf st1 k now rate burst = refillOf st2 k now rate burst := by
    simp [refillOf, hl]
  rw [consume_eq_ite, consume_eq_ite, hr]
  by_cases h1 : 1 ≤ refillOf st2 k now rate burst <;> simp [h1]

theorem append_ne_of_length_ne (a b s : String) (h : a.length ≠ b.length) :
    a ++ s ≠ b ++ s := by
  intro he
  have h2 : a.length + s.length = b.length + s.length := by
    simpa [String.length_append] using congrArg String.length he
  exact h (Nat.add_right_cancel h2)

/-- C7: for the configured tiers, distinct tiers give the same client
distinct bucket keys (the tier key namespaces differ), a call under one tier
neither reads nor writes the other tier's record, and the other tier's
admission decision is unchanged by it. -/
theorem c7_tier_isolation (tA tB : String)
    (hA : tA ∈ ["free", "pro", "enterprise"])
    (hB : tB ∈ ["free", "pro", "enterprise"]) (hne : tA ≠ tB)
    (ck : String) (st : BStore) (nowB nowA : ℚ) :
    bucketKey tA ck ≠ bucketKey tB ck
    ∧ kvFind (check_rate_limit false st ck tB nowB).2 (bucketKey tA ck)
        = kvFind st (bucketKey tA ck)
    ∧ (check_rate_limit false (check_rate_limit false st ck tB nowB).2 ck tA nowA).1
        = (check_rate_limit false st ck tA nowA).1 := by
  have e1 : bucketKey "free" ck = "rate_limit:free:" ++ ck := rfl
  have e2 : bucketKey "pro" ck = "rate_limit:pro:" ++ ck := rfl
  have e3 : bucketKey "enterprise" ck = "rate_limit:enterprise:" ++ ck := rfl
  have hA' : tA = "free" ∨ tA = "pro" ∨ tA = "enterprise" := by simpa using hA
  have hB' : tB = "free" ∨ tB = "pro" ∨ tB = "enterprise" := by simpa using hB
  have hkey : bucketKey tA ck ≠ bucketKey tB ck := by
    rcases hA' with rfl | rfl | rfl <;> rcases hB' with rfl | rfl | rfl <;>
      first
        | exact absurd rfl hne
        | (simp only [e1, e2, e3]; exact append_ne_of_length_ne _ _ _ (by decide))
  have hcrl : ∀ (st : BStore) (t : String) (now : ℚ),
      check_rate_limit false st ck t now
        = consume st (bucketKey t ck) now (configFor t).requests_per_minute
            (configFor t).burst_size := fun _ _ _ => rfl
  have hframe : kvFind (check_rate_limit false st ck tB nowB).2 (bucketKey tA ck)
      = kvFind st (bucketKey tA ck) := by
    rw [hcrl st tB nowB]
    exact consume_frame st (bucketKey tB ck) (bucketKey tA ck) nowB _ _ hkey
  refine ⟨hkey, hframe, ?_⟩
  rw [hcrl ((check_rate_limit false st ck tB nowB).2) tA nowA, hcrl st tA nowA]
  exact consume_allowed_congr _ st (bucketKey tA ck) nowA _ _ hframe

/-- Witness for C7: tiers free and pro, client "c1", empty store. -/
theorem c7_witness :
    bucketKey "free" "c1" ≠ bucketKey "pro" "c1"
    ∧ kvFind (check_rate_limit false [] "c1" "pro" 0).2 (bucketKey "free" "c1")
        = kvFind [] (bucketKey "free" "c1")
    ∧ (check_rate_limit false (check_rate_limit false [] "c1" "pro" 0).2
          "c1" "free" 0).1
        = (check_rate_limit false [] "c1" "free" 0).1 :=
  c7_tier_isolation "free" "pro" (by decide) (by decide) (by decide) "c1" [] 0 0

/-- C8: whenever the analysis branches actually run — which the source only
does with `use_cache` false, a `use_cache=true` call raising inside the cache
lookup (ConnectionError or the await TypeError) before any provider task is
created — a failing branch makes `analyze_code` re-raise that branch's
exception unchanged (the `except Exception` handler logs, records telemetry
and re-raises) and the cache store is left exactly as it was: `cache.set`
sits after the gather, under `if use_cache:`, and is never reached. -/
theorem c8_provider_failure_no_write (cache : RStore) (code : String)
    (context : Ctx) (ctxTask : Except String CtxOut)
    (debugTask optTask : Except String (List JVal)) (now et : ℚ) (ts : String)
    (msg : String) (hfail : gather3 ctxTask debugTask optTask = .error msg) :
    analyze_code cache false code context ctxTask debugTask optTask now et ts
      = (.error (.provider msg), cache) := by
  simp [analyze_code, hfail]

/-- Witness for C8: context branch raising "boom" over a concrete store. -/
theorem c8_witness :
    analyze_code ⟨false, []⟩ false "def f(): pass" none (.error "boom") (.ok [])
        (.ok []) 0 0 "t" = (.error (.provider "boom"), ⟨false, []⟩) :=
  c8_provider_failure_no_write ⟨false, []⟩ "def f(): pass" none (.error "boom")
    (.ok []) (.ok []) 0 0 "t" "boom" rfl

/-- C7 counterexample: "gold" and "silver" are distinct tiers, yet both are
unknown to `tier_configs` and resolve to the default configuration with the
single namespace "rate_limit", so for the same client they read and write the
SAME bucket record: against a live record holding one token, the client's
call under tier "silver" is allowed, but after a call under tier "gold"
consumed that shared token the same "silver" call is denied. -/
theorem c7_counterexample_unknown_tiers_share_bucket :
    ("gold" : String) ≠ "silver"
    ∧ bucketKey "gold" "c" = bucketKey "silver" "c"
    ∧ (check_rate_limit false [("rate_limit:c", ⟨1, 0, 100⟩)] "c" "silver" 0).1
        = true
    ∧ (check_rate_limit false
          (check_rate_limit false [("rate_limit:c", ⟨1, 0, 100⟩)] "c" "gold" 0).2
          "c" "silver" 0).1 = false := by
  have hg : ∀ (st : BStore),
      check_rate_limit false st "c" "gold" 0 = consume st "rate_limit:c" 0 60 10 :=
    fun _ => rfl
  have hs : ∀ (st : BStore),
      check_rate_limit false st "c" "silver" 0 = consume st "rate_limit:c" 0 60 10 :=
    fun _ => rfl
  refine ⟨by decide, rfl, ?_, ?_⟩
  · rw [hs]
    norm_num [consume, loadBucket, kvFind, kvPut, kvErase, min_def]
  · rw [hg, hs]
    norm_num [consume, loadBucket, kvFind, kvPut, kvErase, min_def]

end OmniStack
